import Mathlib

/-!
Verification of the tunnel-multiplexing proxy in src/main.go against its
natural-language specification.

Wire lines are modelled as lists of characters (the program only ever
manipulates ASCII protocol text, for which Go's byte indexing and the
character indexing used here coincide).  Network connections are modelled
by opaque numeric identifiers; the effects a handler performs on the
network are recorded as explicit action traces.
-/

/-- Conversion of a (possibly out-of-range) integer to Go's `int32`:
two's-complement truncation to 32 bits.  Models both the `int32(connID)`
conversion in `handleClientProxyConn` (src/main.go line 198) and the
wrap-around of `atomic.AddInt32` (line 128). -/
def wrap32 (n : Int) : Int :=
  (n + 2 ^ 31) % 2 ^ 32 - 2 ^ 31

/-- Value of a decimal digit character, `none` for a non-digit.
Go's `strconv` accepts exactly the ASCII digits 0-9 in base 10. -/
def digitVal (c : Char) : Option Nat :=
  if c.isDigit then some (c.toNat - 48) else none

/-- Accumulate the decimal value of a digit string left to right,
failing on the first non-digit.  Helper for `atoi`. -/
def digitsVal (s : List Char) : Option Nat :=
  s.foldl (fun acc c => acc.bind (fun n => (digitVal c).map (fun d => n * 10 + d))) (some 0)

/-- Go's `strconv.Atoi` (base 10, 64-bit `int`): optional sign, at least
one digit, all characters digits, magnitude within the 64-bit range,
otherwise an error (modelled as `none`).  Used at src/main.go lines 193
and 236. -/
def atoi (s : List Char) : Option Int :=
  match s with
  | [] => none
  | '+' :: rest =>
    if rest = [] then none
    else (digitsVal rest).bind (fun n => if n ≤ 2 ^ 63 - 1 then some (n : Int) else none)
  | '-' :: rest =>
    if rest = [] then none
    else (digitsVal rest).bind (fun n => if n ≤ 2 ^ 63 then some (-(n : Int)) else none)
  | _ =>
    (digitsVal s).bind (fun n => if n ≤ 2 ^ 63 - 1 then some (n : Int) else none)

/-- Encoding of a dial request as written by `Dialer.Dial`
(src/main.go line 224): `fmt.Sprintf("dial:%s\n", addr)`. -/
def encodeDial (addr : List Char) : List Char :=
  ("dial:".toList) ++ addr ++ ['\n']

/-- The Relay Handler's parsing of a Control-Link line
(src/main.go lines 110-114): a line of length ≤ 5 (newline included)
is rejected as invalid; otherwise everything after the first five
characters — the trailing newline included, since `line[5:]` is taken
from the raw `ReadString('\n')` result — is the target address. -/
def parseDialReq (line : List Char) : Option (List Char) :=
  if line.length ≤ 5 then none else some (line.drop 5)

/-- Decimal rendering of a connection ID followed by a newline:
`fmt.Sprintf("%d\n", connID)` (src/main.go line 129). -/
def intToLine (n : Int) : List Char :=
  (toString n).toList ++ ['\n']

/-- Externally visible actions of one `handleOneProxy` invocation
(src/main.go lines 103-144).  `openDataLink` is the `net.Dial` to the
rendezvous address, `openTarget` the `net.Dial` to the requested target,
`writeData`/`readAck` the ID announcement and acknowledgement on the
Data Link, `writeControl`/`flushControl` the response on the Control
Link, and `startPipe` the start of `pipeRemote`.  `closeData` and
`closeTarget` are in the vocabulary so that their absence from a trace
is expressible; the source contains no `Close` call in this function. -/
inductive PAct
  | openDataLink
  | openTarget (addr : List Char)
  | writeData (s : List Char)
  | readAck
  | writeControl (s : List Char)
  | flushControl
  | startPipe
  | closeData
  | closeTarget
deriving DecidableEq

/-- One iteration of the Relay Handler, `handleOneProxy`
(src/main.go lines 103-144), as a function of the counter value `cid`
(the global `proxyConnID`), the result of the Control-Link read
(`none` = read error), and the success of the three fallible network
operations.  Returns the new counter value and the trace of actions
performed, in program order:
read error → return; short line → return; data-link dial (fails →
return, connection not closed); target dial (fails → return, nothing
closed); counter increment; ID line written on the Data Link;
acknowledgement read (fails → return, nothing closed); response written
and flushed on the Control Link; pipe started. -/
def handleOneProxy (cid : Int) (lineRes : Option (List Char))
    (dataOk targetOk ackOk : Bool) : Int × List PAct :=
  match lineRes with
  | none => (cid, [])
  | some line =>
    match parseDialReq line with
    | none => (cid, [])
    | some raddr =>
      if dataOk = false then (cid, [PAct.openDataLink])
      else if targetOk = false then (cid, [PAct.openDataLink, PAct.openTarget raddr])
      else if ackOk = false then
        (wrap32 (cid + 1),
         [PAct.openDataLink, PAct.openTarget raddr,
          PAct.writeData (intToLine (wrap32 (cid + 1))), PAct.readAck])
      else
        (wrap32 (cid + 1),
         [PAct.openDataLink, PAct.openTarget raddr,
          PAct.writeData (intToLine (wrap32 (cid + 1))), PAct.readAck,
          PAct.writeControl (intToLine (wrap32 (cid + 1))), PAct.flushControl,
          PAct.startPipe])

/-- Is this action a write on the Control Link (the response
`w.WriteString(rsp)` or its `w.Flush()`)? -/
def isCtrlWrite : PAct → Bool
  | PAct.writeControl _ => true
  | PAct.flushControl => true
  | _ => false

/-- Is this action the closing of a connection opened for the request? -/
def isClose : PAct → Bool
  | PAct.closeData => true
  | PAct.closeTarget => true
  | _ => false

/-- The Gateway's Correlation Table, `Dialer.conns : map[int32]net.Conn`
(src/main.go line 209).  Connections are opaque numeric identifiers; a
later binding for the same key shadows an earlier one, matching Go map
assignment. -/
abbrev Table := List (Int × Nat)

/-- Go map lookup `dialer.conns[id]` (src/main.go line 240); the `nil`
zero value for a missing key is `none`. -/
def tlookup (id : Int) : Table → Option Nat
  | [] => none
  | (k, c) :: rest => if k = id then some c else tlookup id rest

/-- `Dialer.setProxyConn` (src/main.go lines 256-259): store the Data
Link under its Connection ID.  It only ever adds a binding; no operation
in the source deletes one. -/
def setProxyConn (t : Table) (id : Int) (c : Nat) : Table :=
  (id, c) :: t

/-- Failure modes of `Dialer.Dial` (src/main.go lines 220-245), in the
order the source can produce them: `WriteString` error, `ReadString`
error, `strconv.Atoi` error, and the `errors.New("can't get conn")`
case for an ID with no registered Data Link. -/
inductive DialErr
  | writeErr
  | readErr
  | atoiErr
  | noConn
deriving DecidableEq

/-- `Dialer.Dial` (src/main.go lines 220-245) as a function of the
Correlation Table at the moment of its lookup, the success of the
request write, and the result of the response-line read.  After parsing
the response Connection ID it performs one immediate map lookup
(line 240): there is no waiting construct and no timeout in the source.
`line.dropLast` is `line[:len(line)-1]` (the newline stripped before
`Atoi`), and `wrap32` is the `int32(connID)` conversion. -/
def dialerDial (t : Table) (writeOk : Bool) (lineRes : Option (List Char)) :
    Except DialErr Nat :=
  if writeOk = false then Except.error DialErr.writeErr
  else
    match lineRes with
    | none => Except.error DialErr.readErr
    | some line =>
      match atoi line.dropLast with
      | none => Except.error DialErr.atoiErr
      | some n =>
        match tlookup (wrap32 n) t with
        | none => Except.error DialErr.noConn
        | some c => Except.ok c

/-- `Dialer.Dial` together with the Correlation Table it leaves behind.
The source's `Dial` only reads `dialer.conns` (src/main.go line 240) and
contains no `delete`, so the table component is returned unchanged. -/
def dialerDialFull (t : Table) (writeOk : Bool) (lineRes : Option (List Char)) :
    Except DialErr Nat × Table :=
  (dialerDial t writeOk lineRes, t)

/-- Follows the spec's words (§4.3): `await(id, timeout)` blocks the
dialing caller until `register` is called for the ID or the timeout
elapses.  Modelled over a time-indexed registration history `reg`
(`reg t` = the Data Link registered under the awaited ID at instant
`t`, if any): the first registration at or before the deadline is
returned.  Present only for comparison with `dialerDial`, which the
source implements with a single instantaneous lookup instead. -/
def awaitSpec (reg : Nat → Option Nat) (deadline : Nat) : Option Nat :=
  (List.range (deadline + 1)).findSome? reg

/-- A registration history in which the Data Link (connection 7) for
the awaited ID is registered at instant 1 — within any deadline ≥ 1 —
but is absent at instant 0, the moment `Dialer.Dial` performs its only
lookup. -/
def regLate : Nat → Option Nat :=
  fun t => if t = 0 then none else some 7

/-- Externally visible actions of one `handleClientProxyConn`
invocation (src/main.go lines 179-200): adopting the connection as the
Control Link (`NewDialer`), the single `ReadString` on it, the
registration `setProxyConn(id, conn)`, and the `ok` acknowledgement
write. -/
inductive GAct
  | becomeControl
  | readLine
  | register (id : Int) (c : Nat)
  | writeOk
deriving DecidableEq

/-- Is this action the dispatcher's line read? -/
def isReadLine : GAct → Bool
  | GAct.readLine => true
  | _ => false

/-- The Gateway Dispatcher for rendezvous connections,
`handleClientProxyConn` (src/main.go lines 179-200), as a function of
whether a Control Link already exists (`defaultDialer != nil`), the
result of reading one line from the connection, and the connection's
identifier `c`.  First arrival: the connection becomes the Control Link
and nothing is read.  Otherwise: one line is read; on a read or `Atoi`
failure the handler returns; on success it registers the connection
under `int32(connID)` and only then writes `ok` back. -/
def handleClientProxyConn (hasDialer : Bool) (lineRes : Option (List Char))
    (c : Nat) : List GAct :=
  if hasDialer = false then [GAct.becomeControl]
  else
    match lineRes with
    | none => [GAct.readLine]
    | some line =>
      match atoi line.dropLast with
      | none => [GAct.readLine]
      | some n => [GAct.readLine, GAct.register (wrap32 n) c, GAct.writeOk]

/-- One `atomic.AddInt32(&proxyConnID, 1)` (src/main.go line 128):
returns the incremented 32-bit counter value. -/
def addInt32 (n : Int) : Int :=
  wrap32 (n + 1)

/-- The value of the global counter `proxyConnID` after `k` allocations,
starting from its zero initial value (src/main.go line 31).  For
`k ≥ 1`, `proxyConnIDSeq k` is the Connection ID returned by the `k`-th
allocation. -/
def proxyConnIDSeq : Nat → Int
  | 0 => 0
  | k + 1 => addInt32 (proxyConnIDSeq k)

/-- State of the Relay's per-connection handler `handleProxy`
(src/main.go lines 93-101): the successful lines the buffered reader
will still deliver, and the current counter value.  An exhausted list
models a dropped Control Link — every further `ReadString` returns the
same error, as `bufio.Reader` does once the connection is dead. -/
structure RelayState where
  lines : List (List Char)
  cid : Int
deriving DecidableEq

/-- Control-flow signal a loop body can give its enclosing `for` loop.
Go's `return` inside `handleOneProxy` terminates only `handleOneProxy`
itself, so `handleProxy`'s loop body — which contains no `break` and no
`return` — always yields `cont`. -/
inductive Signal
  | cont
  | brk
deriving DecidableEq

/-- One iteration of the `for { handleOneProxy(r, w) }` loop in
`handleProxy` (src/main.go lines 98-100), with the per-iteration
outcomes of the fallible network operations supplied by `env`.  The
body invokes `handleOneProxy` and unconditionally continues: the source
loop has no exit condition. -/
def handleProxyBody (env : Bool × Bool × Bool) (s : RelayState) :
    Signal × RelayState :=
  match s.lines with
  | [] =>
    (Signal.cont, RelayState.mk []
      (handleOneProxy s.cid none env.1 env.2.1 env.2.2).1)
  | l :: rest =>
    (Signal.cont, RelayState.mk rest
      (handleOneProxy s.cid (some l) env.1 env.2.1 env.2.2).1)

/-- Run `handleProxy`'s loop for up to `n` iterations.  The Boolean
records whether the loop exited (via a `brk` signal) within those
iterations; `false` after every `n` means the deferred
`closeConn("PROXY", conn)` at src/main.go line 95 has not run and
control has not returned to `serveProxy`'s re-dial loop. -/
def handleProxyRun (env : Bool × Bool × Bool) : Nat → RelayState → RelayState × Bool
  | 0, s => (s, false)
  | Nat.succ n, s =>
    match handleProxyBody env s with
    | (Signal.brk, s2) => (s2, true)
    | (Signal.cont, s2) => handleProxyRun env n s2

/-- The two concurrent local application connections of spec property
P5, each executing `Dialer.Dial`. -/
inductive Caller
  | A
  | B
deriving DecidableEq

/-- Shared state of two concurrent `Dialer.Dial` calls on the single
Control Link.  `pcA`/`pcB`: 0 = about to write `dial:`, 1 = about to
read the response line, 2 = done.  `reqs` records the order the request
lines were written on the link; the Relay of spec property P5 answers
in submission order, so the `k`-th response line read off the link
belongs to the caller `reqs[k]`.  `taken` counts response lines
consumed; `gotA`/`gotB` record the index of the response line each
caller read.  Because the source takes no lock in `Dial` (the `Lock` /
`Unlock` calls at src/main.go lines 167-168 and 185-186 are commented
out), both callers may be between their write and their read at once,
and any interleaving of the four atomic steps is schedulable. -/
structure CState where
  pcA : Nat
  pcB : Nat
  reqs : List Caller
  taken : Nat
  gotA : Option Nat
  gotB : Option Nat
deriving DecidableEq

/-- Initial state: neither caller has written, no requests, no
responses consumed. -/
def cinit : CState :=
  CState.mk 0 0 [] 0 none none

/-- One atomic step of the chosen caller: its `dial:` write
(src/main.go lines 226-230) or its response-line read (line 231).  A
read blocks (`none`) until the Relay has answered, i.e. until fewer
responses have been consumed than requests submitted. -/
def cstep (s : CState) : Caller → Option CState
  | Caller.A =>
    if s.pcA = 0 then
      some (CState.mk 1 s.pcB (s.reqs ++ [Caller.A]) s.taken s.gotA s.gotB)
    else if s.pcA = 1 then
      if s.taken < s.reqs.length then
        some (CState.mk 2 s.pcB s.reqs (s.taken + 1) (some s.taken) s.gotB)
      else none
    else none
  | Caller.B =>
    if s.pcB = 0 then
      some (CState.mk s.pcA 1 (s.reqs ++ [Caller.B]) s.taken s.gotA s.gotB)
    else if s.pcB = 1 then
      if s.taken < s.reqs.length then
        some (CState.mk s.pcA 2 s.reqs (s.taken + 1) s.gotA (some s.taken))
      else none
    else none

/-- Run a schedule (a sequence of caller choices); `none` when the
schedule asks a blocked or finished caller to step. -/
def crun : List Caller → CState → Option CState
  | [], s => some s
  | w :: rest, s =>
    match cstep s w with
    | none => none
    | some s2 => crun rest s2

/-- The caller whose request the `i`-th response line on the Control
Link answers: the submitter of the `i`-th request, the Relay answering
in submission order. -/
def ownerOfResp (s : CState) (i : Nat) : Option Caller :=
  s.reqs[i]?

/-- The serialization property claim C8 asserts of the source: on every
schedulable interleaving, each caller that completed its read obtained
the response line belonging to its own request. -/
def serializedDials : Prop :=
  ∀ sched sfin, crun sched cinit = some sfin →
    (∀ i, sfin.gotA = some i → ownerOfResp sfin i = some Caller.A) ∧
    (∀ i, sfin.gotB = some i → ownerOfResp sfin i = some Caller.B)

/-- `int32` truncation is the identity on values already in range. -/
theorem wrap32_id (n : Int) (h0 : 0 ≤ n) (h1 : n < 2 ^ 31) : wrap32 n = n := by
  unfold wrap32
  omega

/-- Short of 32-bit exhaustion the counter after `k` allocations is
exactly `k`. -/
theorem proxyConnIDSeq_eq : ∀ k : Nat, k < 2 ^ 31 → proxyConnIDSeq k = k := by
  intro k
  induction k with
  | zero => intro _; rfl
  | succ m ih =>
    intro h
    have hm := ih (Nat.lt_of_succ_lt h)
    have h1 : (0 : Int) ≤ (m : Int) + 1 := by omega
    have h2 : (m : Int) + 1 < 2 ^ 31 := by exact_mod_cast h
    show addInt32 (proxyConnIDSeq m) = ((m + 1 : Nat) : Int)
    rw [hm]
    unfold addInt32
    rw [wrap32_id _ h1 h2]
    push_cast
    ring

/-- What the Relay Handler's parser actually yields on a line written
by the Gateway's codec: the address with the trailing newline still
attached, because `line[5:]` is taken from the raw line. -/
theorem parseDialReq_encode (addr : List Char) :
    parseDialReq (encodeDial addr) = some (addr ++ ['\n']) := by
  have h5 : ("dial:".toList).length = 5 := rfl
  have h : ¬ (encodeDial addr).length ≤ 5 := by
    simp [encodeDial, List.length_append, h5]
  unfold parseDialReq
  rw [if_neg h]
  rfl

/-- Claim C2 (code bug): encoding the default target address
`www.qq.com:80` as a `dial:` line and decoding it as `handleOneProxy`
does yields `www.qq.com:80` followed by a newline — not the original
address.  The decoded string is handed directly to `net.Dial`
(src/main.go line 122), which cannot parse a port ending in a newline,
so the round trip the spec requires (P1) fails for every address. -/
theorem c2_roundtrip_newline_bug :
    parseDialReq (encodeDial ("www.qq.com:80".toList)) =
      some (("www.qq.com:80".toList) ++ ['\n']) ∧
    ("www.qq.com:80".toList) ++ ['\n'] ≠ ("www.qq.com:80".toList) := by
  decide

/-- Claim C10: the Relay Handler accepts a Control-Link line as a dial
request exactly when its length (newline included) exceeds 5, and then
takes everything after the first 5 characters as the target address; no
`dial:` prefix is ever checked. -/
theorem c10_validity (line : List Char) :
    (parseDialReq line = none ↔ line.length ≤ 5) ∧
    (5 < line.length → parseDialReq line = some (line.drop 5)) := by
  constructor
  · constructor
    · intro h
      by_contra hlen
      simp [parseDialReq, hlen] at h
    · intro h
      simp [parseDialReq, h]
  · intro h
    have hlen : ¬ line.length ≤ 5 := by omega
    simp [parseDialReq, hlen]

/-- Witness for C10: the 6-character line `dial:` + newline (empty
address) is accepted, and so is a 7-character line that does not start
with `dial:` at all. -/
theorem c10_validity_witness :
    parseDialReq ("dial:\n".toList) = some (("dial:\n".toList).drop 5) ∧
    parseDialReq ("xxxxxx\n".toList) = some (("xxxxxx\n".toList).drop 5) :=
  ⟨(c10_validity ("dial:\n".toList)).2 (by decide),
   (c10_validity ("xxxxxx\n".toList)).2 (by decide)⟩

/-- Claim C6: the Connection-ID allocator (`atomic.AddInt32` on the
single counter `proxyConnID`) returns, short of 32-bit exhaustion,
values that are non-negative, within 32 bits, strictly increasing, and
therefore pairwise distinct. -/
theorem c6_alloc_strict (i j : Nat) (hij : i < j) (hj : j < 2 ^ 31) :
    0 ≤ proxyConnIDSeq i ∧ proxyConnIDSeq i < 2 ^ 31 ∧
    proxyConnIDSeq i < proxyConnIDSeq j ∧ proxyConnIDSeq i ≠ proxyConnIDSeq j := by
  have hi := proxyConnIDSeq_eq i (by omega)
  have hjj := proxyConnIDSeq_eq j hj
  rw [hi, hjj]
  have hcast : (i : Int) < (j : Int) := by exact_mod_cast hij
  have hcast2 : (j : Int) < 2 ^ 31 := by exact_mod_cast hj
  refine ⟨by omega, by omega, hcast, by omega⟩

/-- Witness for C6 at the first two allocations. -/
theorem c6_alloc_strict_witness :
    0 ≤ proxyConnIDSeq 1 ∧ proxyConnIDSeq 1 < 2 ^ 31 ∧
    proxyConnIDSeq 1 < proxyConnIDSeq 2 ∧ proxyConnIDSeq 1 ≠ proxyConnIDSeq 2 :=
  c6_alloc_strict 1 2 (by decide) (by norm_num)

/-- Claim C1 counterexample: `Dialer.Dial` does not block until a
registration arrives.  With a registration history in which the Data
Link for ID 1 is registered at instant 1 — well within a deadline of
5 — the spec's `await` yields the link, while the source's `Dial`,
whose only lookup sees the instant-0 (still empty) table, fails
immediately with the `can't get conn` error instead of waiting. -/
theorem c1_no_await_cex :
    awaitSpec regLate 5 = some 7 ∧
    dialerDial [] true (some ['1', '\n']) = Except.error DialErr.noConn :=
  ⟨rfl, rfl⟩

/-- Claim C1 (amended): after reading the response Connection ID off
the Control Link, `Dialer.Dial` performs a single immediate lookup in
the Correlation Table — returning the registered Data Link if the ID is
already present and failing at once with `can't get conn` otherwise;
there is no blocking wait and no timeout. -/
theorem c1_dial_immediate (t : Table) (line : List Char) (n : Int) (c : Nat)
    (hp : atoi line.dropLast = some n) :
    (tlookup (wrap32 n) t = some c → dialerDial t true (some line) = Except.ok c) ∧
    (tlookup (wrap32 n) t = none →
      dialerDial t true (some line) = Except.error DialErr.noConn) := by
  constructor <;> intro hl <;> simp [dialerDial, hp, hl]

/-- Witness for C1 (amended): with ID 1 registered to connection 7,
`Dial` on response line `1` returns connection 7. -/
theorem c1_dial_immediate_witness :
    dialerDial [(1, 7)] true (some ['1', '\n']) = Except.ok 7 :=
  (c1_dial_immediate [(1, 7)] ['1', '\n'] 1 7 (by decide)).1 (by decide)

/-- Claim C3 counterexample: when the Target Link open fails after the
Data Link was successfully opened, `handleOneProxy` returns having
performed only the two opens: the opened Data Link is not closed (no
close action appears in the trace), contradicting the claim that every
connection opened for the request is closed. -/
theorem c3_leak_cex :
    (handleOneProxy 0 (some ("dial:x\n".toList)) true false true).2 =
      [PAct.openDataLink, PAct.openTarget ("x\n".toList)] ∧
    PAct.closeData ∉ (handleOneProxy 0 (some ("dial:x\n".toList)) true false true).2 := by
  decide

/-- Claim C3 (amended): whenever the Relay Handler abandons a dial
request after having opened at least one connection — the Target Link
open failing, or the `ok` acknowledgement not arriving — it writes no
response line on the Control Link, but it also closes none of the
connections it opened: the trace contains the Data-Link open yet
neither a Control-Link write nor any close. -/
theorem c3_abandon_silent (cid : Int) (line : List Char) (h : 5 < line.length)
    (targetOk ackOk : Bool) (hab : targetOk = false ∨ ackOk = false) :
    List.filter isCtrlWrite (handleOneProxy cid (some line) true targetOk ackOk).2 = [] ∧
    List.filter isClose (handleOneProxy cid (some line) true targetOk ackOk).2 = [] ∧
    PAct.openDataLink ∈ (handleOneProxy cid (some line) true targetOk ackOk).2 := by
  have hlen : ¬ line.length ≤ 5 := by omega
  rcases hab with hab | hab
  · subst hab
    simp [handleOneProxy, parseDialReq, hlen, isCtrlWrite, isClose]
  · subst hab
    cases targetOk
    · simp [handleOneProxy, parseDialReq, hlen, isCtrlWrite, isClose]
    · simp [handleOneProxy, parseDialReq, hlen, isCtrlWrite, isClose]

/-- Witness for C3 (amended) at the Target-Link-failure case. -/
theorem c3_abandon_silent_witness :
    List.filter isCtrlWrite
      (handleOneProxy 0 (some ("dial:x\n".toList)) true false true).2 = [] ∧
    List.filter isClose
      (handleOneProxy 0 (some ("dial:x\n".toList)) true false true).2 = [] ∧
    PAct.openDataLink ∈ (handleOneProxy 0 (some ("dial:x\n".toList)) true false true).2 :=
  c3_abandon_silent 0 ("dial:x\n".toList) (by decide) false true (Or.inl rfl)

/-- Claim C4: the Gateway Dispatcher classifies every inbound
rendezvous connection on arrival.  When no Control Link exists the
connection becomes the Control Link and nothing is read from it; when
one exists, exactly one line is read, and when it parses as a
Connection ID the connection is registered under `int32` of that ID and
only then is `ok` written back on it. -/
theorem c4_dispatch (lineRes : Option (List Char)) (c : Nat) :
    handleClientProxyConn false lineRes c = [GAct.becomeControl] ∧
    List.filter isReadLine (handleClientProxyConn true lineRes c) = [GAct.readLine] ∧
    (handleClientProxyConn true lineRes c).head? = some GAct.readLine ∧
    ∀ l n, lineRes = some l → atoi l.dropLast = some n →
      handleClientProxyConn true lineRes c =
        [GAct.readLine, GAct.register (wrap32 n) c, GAct.writeOk] := by
  cases lineRes with
  | none =>
    exact ⟨rfl, rfl, rfl, fun l n hsome _ => nomatch hsome⟩
  | some line =>
    cases hv : atoi line.dropLast with
    | none =>
      refine ⟨rfl, ?_, ?_, ?_⟩
      · simp [handleClientProxyConn, hv, isReadLine]
      · simp [handleClientProxyConn, hv]
      · intro l n hsome hat
        cases hsome
        rw [hv] at hat
        cases hat
    | some m =>
      refine ⟨rfl, ?_, ?_, ?_⟩
      · simp [handleClientProxyConn, hv, isReadLine]
      · simp [handleClientProxyConn, hv]
      · intro l n hsome hat
        cases hsome
        rw [hv] at hat
        cases hat
        simp [handleClientProxyConn, hv]

/-- Witness for C4: first arrival becomes the Control Link; a later
arrival announcing ID 7 is registered and then acknowledged. -/
theorem c4_dispatch_witness :
    handleClientProxyConn false none 0 = [GAct.becomeControl] ∧
    handleClientProxyConn true (some ['7', '\n']) 3 =
      [GAct.readLine, GAct.register (wrap32 7) 3, GAct.writeOk] :=
  ⟨(c4_dispatch none 0).1,
   (c4_dispatch (some ['7', '\n']) 3).2.2.2 ['7', '\n'] 7 rfl (by decide)⟩

/-- Claim C5: on a successful handshake the Relay Handler's actions
are, in order: open the Data Link, open the Target Link, write the
Connection ID as the first line on the Data Link, read the
acknowledgement from the Data Link, and only then write the ID on the
Control Link, flush it, and start the payload pipe.  In particular the
ID announcement precedes anything else on the Data Link (payload bytes
flow only inside `pipeRemote`, started last), and the Control-Link
response comes after the Data-Link acknowledgement. -/
theorem c5_handshake_order (cid : Int) (line : List Char) (h : 5 < line.length) :
    (handleOneProxy cid (some line) true true true).2 =
      [PAct.openDataLink, PAct.openTarget (line.drop 5),
       PAct.writeData (intToLine (wrap32 (cid + 1))), PAct.readAck,
       PAct.writeControl (intToLine (wrap32 (cid + 1))), PAct.flushControl,
       PAct.startPipe] := by
  have hlen : ¬ line.length ≤ 5 := by omega
  simp [handleOneProxy, parseDialReq, hlen]

/-- Witness for C5 at the request line `dial:x` and counter 0. -/
theorem c5_handshake_order_witness :
    (handleOneProxy 0 (some ("dial:x\n".toList)) true true true).2 =
      [PAct.openDataLink, PAct.openTarget (("dial:x\n".toList).drop 5),
       PAct.writeData (intToLine (wrap32 (0 + 1))), PAct.readAck,
       PAct.writeControl (intToLine (wrap32 (0 + 1))), PAct.flushControl,
       PAct.startPipe] :=
  c5_handshake_order 0 ("dial:x\n".toList) (by decide)

/-- Claim C7 (code bug): on a dropped Control Link — every further read
failing — `handleProxy`'s `for { handleOneProxy(r, w) }` loop never
exits: after any number of iterations the exited flag is still `false`
and the state is unchanged, because `handleOneProxy`'s `return` on the
read error only ends that call and the loop body has no `break`.  The
handler therefore spins forever; the deferred close never runs and
`serveProxy` never re-dials, contradicting the claim. -/
theorem c7_dead_link_spin (env : Bool × Bool × Bool) (n : Nat) (cid : Int) :
    handleProxyRun env n (RelayState.mk [] cid) = (RelayState.mk [] cid, false) := by
  induction n with
  | zero => rfl
  | succ m ih =>
    have hb : handleProxyBody env (RelayState.mk [] cid) =
        (Signal.cont, RelayState.mk [] cid) := rfl
    simp only [handleProxyRun, hb]
    exact ih

/-- Claim C8 counterexample: the serialization property is false.  On
the schedule A-write, B-write, B-read, A-read — reachable because
`Dialer.Dial` takes no lock — caller B reads response line 0, which
belongs to caller A's request. -/
theorem c8_not_serialized_cex : ¬ serializedDials := by
  intro h
  have h2 := (h [Caller.A, Caller.B, Caller.B, Caller.A]
      (CState.mk 2 2 [Caller.A, Caller.B] 2 (some 1) (some 0)) (by decide)).2 0 rfl
  exact absurd h2 (by decide)

/-- Claim C8 (amended): nothing serializes use of the Control Link (the
`Lock`/`Unlock` calls are commented out and `Dial` takes no lock), so
there is a schedulable interleaving of two concurrent `Dial` calls in
which one caller reads the response line belonging to the other
caller's request. -/
theorem c8_swap_reachable :
    ∃ sched sfin, crun sched cinit = some sfin ∧
      sfin.gotB = some 0 ∧ ownerOfResp sfin 0 = some Caller.A :=
  ⟨[Caller.A, Caller.B, Caller.B, Caller.A],
   CState.mk 2 2 [Caller.A, Caller.B] 2 (some 1) (some 0),
   by decide, rfl, rfl⟩

/-- Claim C9 counterexample: after ID 1 is registered and a `Dial`
claims it successfully, the table still contains the entry for ID 1 —
no release removed it. -/
theorem c9_release_missing_cex :
    dialerDial (setProxyConn [] 1 7) true (some ['1', '\n']) = Except.ok 7 ∧
    (dialerDialFull (setProxyConn [] 1 7) true (some ['1', '\n'])).2 =
      setProxyConn [] 1 7 ∧
    tlookup 1 (dialerDialFull (setProxyConn [] 1 7) true (some ['1', '\n'])).2 =
      some 7 :=
  ⟨rfl, rfl, rfl⟩

/-- Claim C9 (amended): no release operation exists.  `Dial` leaves the
Correlation Table exactly as it found it (the source contains no
`delete`), and `setProxyConn` only adds bindings, so every entry —
claimed or abandoned — is retained indefinitely. -/
theorem c9_no_release (t : Table) (w : Bool) (l : Option (List Char))
    (id id2 : Int) (c c2 : Nat) (h : tlookup id t = some c) (hne : id2 ≠ id) :
    tlookup id (dialerDialFull t w l).2 = some c ∧
    tlookup id (setProxyConn t id2 c2) = some c := by
  constructor
  · exact h
  · show (if id2 = id then some c2 else tlookup id t) = some c
    rw [if_neg hne]
    exact h

/-- Witness for C9 (amended): the entry for ID 1 survives both a
successful `Dial` that claimed it and a later registration of ID 2. -/
theorem c9_no_release_witness :
    tlookup 1 (dialerDialFull [(1, 7)] true (some ['1', '\n'])).2 = some 7 ∧
    tlookup 1 (setProxyConn [(1, 7)] 2 9) = some 7 :=
  c9_no_release [(1, 7)] true (some ['1', '\n']) 1 2 7 9 (by decide) (by decide)
